import Mathlib

/-!
Verification of the content-bridge subsystem: the element codec
(serialize and resolve logic in selection-manager.tsx and
analyzer-overlay.tsx), the bridge transport handlers
(content-bridge.tsx), the context-menu placement logic
(context-menu-manager.tsx) and the analyzer sequencer
(analyzer-overlay.tsx), embedded shallowly as executable Lean functions.
-/

namespace ContentBridgeSpec

/-- A live DOM element as read by the components: the six properties the
code inspects (tagName, className, id, textContent, innerHTML,
outerHTML). textContent is optional, mirroring the string-or-null DOM
typing used in SelectedElement (src/types/element). -/
structure DomElement where
  tagName : String
  className : String
  id : String
  textContent : Option String
  innerHTML : String
  outerHTML : String
deriving DecidableEq, Repr

/-- The transport record SelectedElement (src/types/element): the
six-field snapshot sent across the frame boundary. -/
structure SelectedElement where
  tagName : String
  className : String
  id : String
  textContent : Option String
  innerHTML : String
  outerHTML : String
deriving DecidableEq, Repr

/-- Serialization of a live element, as built by handleClick
(selection-manager.tsx lines 127 to 134) and by handleMenuAction
(context-menu-manager.tsx lines 129 to 136): a field-by-field snapshot. -/
def serialize (e : DomElement) : SelectedElement :=
  { tagName := e.tagName
    className := e.className
    id := e.id
    textContent := e.textContent
    innerHTML := e.innerHTML
    outerHTML := e.outerHTML }

/-- JavaScript toLowerCase restricted to the ASCII range of tag names,
written as a direct character map so it evaluates by kernel reduction. -/
def asciiToLower (s : String) : String :=
  String.mk (s.data.map Char.toLower)

/-- Tag comparison performed by
document.querySelectorAll(record.tagName.toLowerCase()): an HTML tag
selector matches elements case-insensitively. -/
def tagMatches (rec : SelectedElement) (e : DomElement) : Bool :=
  asciiToLower e.tagName == asciiToLower rec.tagName

/-- The predicate of the Array.find call in the resolve effects
(selection-manager.tsx lines 172 to 177, analyzer-overlay.tsx lines 37
to 42): className, id and textContent must all equal the recorded
values exactly. -/
def fieldsMatch (rec : SelectedElement) (e : DomElement) : Bool :=
  e.className == rec.className && e.id == rec.id &&
    e.textContent == rec.textContent

/-- Resolution of a record to a live element (selection-manager.tsx
lines 171 to 179 and, identically, analyzer-overlay.tsx lines 36 to 44):
querySelectorAll over the document in document order restricted to the
recorded tag, then the first element whose className, id and textContent
all match. The document is the list of its elements in document order. -/
def resolve (doc : List DomElement) (rec : SelectedElement) : Option DomElement :=
  (doc.filter (tagMatches rec)).find? (fun el => fieldsMatch rec el)

/-- Spec reading of resolution (spec section 4.1): the first element in
document order whose tag matches case-insensitively and whose other
three recorded fields match exactly. -/
def specResolve (doc : List DomElement) (rec : SelectedElement) : Option DomElement :=
  doc.find? (fun el => tagMatches rec el && fieldsMatch rec el)

/-- The effect converting the selectedElement prop to a live reference
(selection-manager.tsx lines 163 to 180, analyzer-overlay.tsx lines 29
to 45): a missing record clears the reference, otherwise the record is
resolved and a failed match degrades to none. -/
def resolveEffect (doc : List DomElement) (sel : Option SelectedElement) :
    Option DomElement :=
  match sel with
  | none => none
  | some rec => resolve doc rec

/-- Frame to parent messages posted by content-bridge.tsx, as tagged
records. -/
inductive FrameMsg where
  | elementSelected (element : Option SelectedElement)
  | contentHeightChanged (height : Nat)
  | analyzerAnimationComplete (success : Bool)
deriving DecidableEq, Repr

/-- Parent to frame messages dispatched by handleMessage
(content-bridge.tsx lines 25 to 34); a message of any other type falls
through every branch. -/
inductive ParentMsg where
  | setSelectMode (enabled : Bool)
  | setSelectedElement (element : Option SelectedElement)
  | startAnalyzerAnimation (targetElement : Option SelectedElement)
  | unrecognized
deriving DecidableEq, Repr

/-- ContentBridge component state (content-bridge.tsx lines 17 to 20). -/
structure BridgeState where
  isSelectMode : Bool
  selectedElement : Option SelectedElement
  isAnalyzing : Bool
  analyzerTarget : Option SelectedElement
deriving DecidableEq, Repr

/-- handleMessage (content-bridge.tsx lines 25 to 34). -/
def handleMessage (m : ParentMsg) (s : BridgeState) : BridgeState :=
  match m with
  | ParentMsg.setSelectMode enabled => { s with isSelectMode := enabled }
  | ParentMsg.setSelectedElement element => { s with selectedElement := element }
  | ParentMsg.startAnalyzerAnimation target =>
      { s with isAnalyzing := true, analyzerTarget := target }
  | ParentMsg.unrecognized => s

/-- handleElementSelect (content-bridge.tsx lines 81 to 86): forwards
the selection payload, present or absent, as one ELEMENT_SELECTED
message. -/
def handleElementSelect (elementData : Option SelectedElement) : FrameMsg :=
  FrameMsg.elementSelected elementData

/-- The escape keydown listener of SelectionManager
(selection-manager.tsx lines 147 to 160): registered only while select
mode is active; on the Escape key it clears the hovered element and
calls onElementSelect with the absent marker, which handleElementSelect
forwards as one ELEMENT_SELECTED message. Result: the new hovered
element and the messages emitted. The selectedElement prop is not
touched by this handler. -/
def handleEscapeKeyDown (isSelectMode : Bool) (key : String)
    (hoveredElement : Option DomElement) : Option DomElement × List FrameMsg :=
  if isSelectMode && key == "Escape" then
    (none, [handleElementSelect none])
  else
    (hoveredElement, [])

/-- measureAndSendHeight (content-bridge.tsx lines 42 to 63): the raw
height is the maximum of the five document metrics, the maximum bound
6400 is applied first, then the minimum bound 800, and the result is
posted as CONTENT_HEIGHT_CHANGED. -/
def measureAndSendHeight (bodyScrollHeight bodyOffsetHeight docClientHeight
    docScrollHeight docOffsetHeight : Nat) : FrameMsg :=
  let measuredHeight := max bodyScrollHeight (max bodyOffsetHeight
    (max docClientHeight (max docScrollHeight docOffsetHeight)))
  let contentHeight := min measuredHeight 6400
  FrameMsg.contentHeightChanged (max contentHeight 800)

/-- Spec reading of the height clamp (spec section 6): clamp to the
interval from 800 to 6400, maximum bound first, minimum bound second. -/
def specClampHeight (h : Nat) : Nat := max (min h 6400) 800

/-- A bounding rectangle as returned by getBoundingClientRect. -/
structure Rect where
  top : Int
  left : Int
  width : Int
  height : Int
deriving DecidableEq, Repr

/-- Nominal menu box width (context-menu-manager.tsx line 74). -/
def menuWidth : Int := 220

/-- Nominal menu box height (context-menu-manager.tsx line 75). -/
def menuHeight : Int := 130

/-- Menu position computation of handleContextMenu
(context-menu-manager.tsx lines 71 to 84): start at the event point and
move to viewport extent minus box size minus a fixed 10 pixel margin
when the nominal menu box would cross the right or bottom viewport
edge. -/
def computeMenuPosition (clientX clientY innerWidth innerHeight : Int) :
    Int × Int :=
  let x := clientX
  let y := clientY
  let x2 := if x + menuWidth > innerWidth then innerWidth - menuWidth - 10 else x
  let y2 := if y + menuHeight > innerHeight then innerHeight - menuHeight - 10 else y
  (x2, y2)

/-- ContextMenuManager state written by handleContextMenu
(context-menu-manager.tsx lines 29 to 32). -/
structure CtxMenuState where
  contextMenuElement : Option DomElement
  contextMenuOpen : Bool
  menuPosition : Int × Int
  highlightRect : Option Rect
deriving DecidableEq, Repr

/-- The DOM call and the setState calls handleContextMenu performs, in
program order. -/
inductive CtxAction where
  | preventDefault
  | setContextMenuElement (e : Option DomElement)
  | setHighlightRect (r : Option Rect)
  | setMenuPosition (p : Int × Int)
  | setContextMenuOpen (b : Bool)
deriving DecidableEq, Repr

/-- handleContextMenu (context-menu-manager.tsx lines 59 to 88):
preventDefault is called first, unconditionally; then the point is
hit-tested (document.elementFromPoint, supplied here as the hit result,
since it depends on layout) and only when an element is found are the
captured element, the highlight rectangle, the menu position and the
open flag set. rectOf supplies getBoundingClientRect. -/
def handleContextMenu (hit : Option DomElement) (rectOf : DomElement → Rect)
    (clientX clientY innerWidth innerHeight : Int) : List CtxAction :=
  CtxAction.preventDefault ::
    (match hit with
     | some element =>
         [CtxAction.setContextMenuElement (some element),
          CtxAction.setHighlightRect (some (rectOf element)),
          CtxAction.setMenuPosition
            (computeMenuPosition clientX clientY innerWidth innerHeight),
          CtxAction.setContextMenuOpen true]
     | none => [])

/-- Effect of one handleContextMenu action on the component state. -/
def applyCtxAction (s : CtxMenuState) (a : CtxAction) : CtxMenuState :=
  match a with
  | CtxAction.preventDefault => s
  | CtxAction.setContextMenuElement e => { s with contextMenuElement := e }
  | CtxAction.setHighlightRect r => { s with highlightRect := r }
  | CtxAction.setMenuPosition p => { s with menuPosition := p }
  | CtxAction.setContextMenuOpen b => { s with contextMenuOpen := b }

/-- Sequential application of the actions of one handler run. -/
def applyCtxActions (s : CtxMenuState) (l : List CtxAction) : CtxMenuState :=
  l.foldl applyCtxAction s

/-- scanPhase values (analyzer-overlay.tsx line 22). -/
inductive ScanPhase where
  | down
  | up
  | down2
  | up2
  | targetFound
  | contextEnhancing
  | complete
deriving DecidableEq, Repr

/-- The state updates and the callback invocation of the analyzer
sequence. -/
inductive AnalyzerEvent where
  | setScanPhase (p : ScanPhase)
  | setShowTargetFound (b : Bool)
  | setShowContextEnhancing (b : Bool)
  | callOnComplete
deriving DecidableEq, Repr

/-- Duration of one laser sweep in milliseconds (analyzer-overlay.tsx
lines 54 to 66). -/
def sweepDuration : Nat := 750

/-- Delay of the target-found callout in milliseconds
(analyzer-overlay.tsx line 83). -/
def targetFoundDelay : Nat := 1000

/-- Delay of the context-enhancing callout in milliseconds
(analyzer-overlay.tsx line 82). -/
def contextEnhancingDelay : Nat := 1500

/-- Ease out cubic curve used by animateLaser (analyzer-overlay.tsx
line 102). -/
def easeOutCubic (p : ℚ) : ℚ := 1 - (1 - p) ^ 3

/-- Progress of one animateLaser run after a given elapsed time
(analyzer-overlay.tsx line 101): the minimum of elapsed over duration
and 1. The promise resolves exactly when progress reaches 1, so each
sweep completes before the next phase starts. -/
def laserProgress (duration elapsed : ℚ) : ℚ := min (elapsed / duration) 1

/-- Laser position during a sweep (analyzer-overlay.tsx line 104). -/
def laserPositionAt (startPos endPos duration elapsed : ℚ) : ℚ :=
  startPos + (endPos - startPos) * easeOutCubic (laserProgress duration elapsed)

/-- runAnalyzerSequence (analyzer-overlay.tsx lines 52 to 90) as a timed
event trace, with ideal timers: each awaited animateLaser resolves after
exactly its duration and each setTimeout fires after exactly its delay.
The initial scanPhase is down (line 22). After the four sweeps the phase
is set to target-found unconditionally (line 67); only then does the
code branch on whether the target reference resolved: with a live
reference the two callouts run under the two nested timeouts and
onComplete fires after the second one, otherwise the phase moves to
complete and onComplete fires immediately. -/
def runAnalyzerSequence (targetElementRef : Option DomElement) :
    List (Nat × AnalyzerEvent) :=
  let t1 := sweepDuration
  let t2 := t1 + sweepDuration
  let t3 := t2 + sweepDuration
  let t4 := t3 + sweepDuration
  [(t1, AnalyzerEvent.setScanPhase ScanPhase.up),
   (t2, AnalyzerEvent.setScanPhase ScanPhase.down2),
   (t3, AnalyzerEvent.setScanPhase ScanPhase.up2),
   (t4, AnalyzerEvent.setScanPhase ScanPhase.targetFound)] ++
  (match targetElementRef with
   | some _ =>
       [(t4, AnalyzerEvent.setShowTargetFound true),
        (t4 + targetFoundDelay,
          AnalyzerEvent.setScanPhase ScanPhase.contextEnhancing),
        (t4 + targetFoundDelay, AnalyzerEvent.setShowTargetFound false),
        (t4 + targetFoundDelay, AnalyzerEvent.setShowContextEnhancing true),
        (t4 + targetFoundDelay + contextEnhancingDelay,
          AnalyzerEvent.setShowContextEnhancing false),
        (t4 + targetFoundDelay + contextEnhancingDelay,
          AnalyzerEvent.setScanPhase ScanPhase.complete),
        (t4 + targetFoundDelay + contextEnhancingDelay,
          AnalyzerEvent.callOnComplete)]
   | none =>
       [(t4, AnalyzerEvent.setScanPhase ScanPhase.complete),
        (t4, AnalyzerEvent.callOnComplete)])

/-- Event sequence of one run, in execution order. -/
def eventSeq (t : Option DomElement) : List AnalyzerEvent :=
  (runAnalyzerSequence t).map Prod.snd

/-- Successive values of scanPhase over one run, starting from the
initial down state. -/
def analyzerPhaseSeq (t : Option DomElement) : List ScanPhase :=
  ScanPhase.down ::
    (eventSeq t).filterMap (fun ev =>
      match ev with
      | AnalyzerEvent.setScanPhase p => some p
      | _ => none)

/-- Times, in milliseconds from the start of the run, at which scanPhase
changes. -/
def analyzerPhaseTimes (t : Option DomElement) : List Nat :=
  (runAnalyzerSequence t).filterMap (fun te =>
    match te.2 with
    | AnalyzerEvent.setScanPhase _ => some te.1
    | _ => none)

/-- Number of onComplete invocations in one run. -/
def completeCallCount (t : Option DomElement) : Nat :=
  (eventSeq t).countP (fun ev => ev == AnalyzerEvent.callOnComplete)

/-- The analyzer effect (analyzer-overlay.tsx lines 48 to 91) registers
no cleanup, and the component never calls clearTimeout or
cancelAnimationFrame (lines 48 to 115), so clearing isActive cancels
nothing: every already scheduled timer and animation frame callback
still fires. The events observable after a deactivation at time t are
therefore exactly the scheduled events whose time exceeds t. -/
def eventsAfterDeactivation (targetElementRef : Option DomElement)
    (tDeactivate : Nat) : List (Nat × AnalyzerEvent) :=
  (runAnalyzerSequence targetElementRef).filter
    (fun te => decide (tDeactivate < te.1))

/-- handleAnalyzerComplete (content-bridge.tsx lines 89 to 96): clears
the analyzing flag and the target and posts ANALYZER_ANIMATION_COMPLETE
with success always true. -/
def handleAnalyzerComplete (s : BridgeState) : BridgeState × FrameMsg :=
  ({ s with isAnalyzing := false, analyzerTarget := none },
   FrameMsg.analyzerAnimationComplete true)

/-- ANALYZER_ANIMATION_COMPLETE messages emitted over one run: one per
onComplete invocation, each produced by handleAnalyzerComplete. -/
def analyzerCompleteEmissions (s : BridgeState) (t : Option DomElement) :
    List FrameMsg :=
  (eventSeq t).filterMap (fun ev =>
    match ev with
    | AnalyzerEvent.callOnComplete => some (handleAnalyzerComplete s).2
    | _ => none)

/-- Demo element used by concrete witnesses and counterexamples. -/
def demoElem : DomElement :=
  { tagName := "DIV", className := "hero", id := "main-hero"
    textContent := some "Welcome", innerHTML := "Welcome"
    outerHTML := "<div>Welcome</div>" }

/-- A second element of the same tag with different recorded fields. -/
def demoElem2 : DomElement :=
  { tagName := "DIV", className := "nav", id := "menu"
    textContent := some "Home", innerHTML := "Home"
    outerHTML := "<div>Home</div>" }

/-- Demo document: two div elements in document order. -/
def demoDoc : List DomElement := [demoElem2, demoElem]

/-- Demo bridge state with select mode active and a pinned record. -/
def demoBridgeState : BridgeState :=
  { isSelectMode := true, selectedElement := some (serialize demoElem)
    isAnalyzing := false, analyzerTarget := none }

/-- Demo bounding-rectangle query. -/
def demoRectOf : DomElement → Rect :=
  fun _ => { top := 10, left := 20, width := 300, height := 40 }

/-- Demo context menu state with a menu already open. -/
def demoCtxState : CtxMenuState :=
  { contextMenuElement := some demoElem2, contextMenuOpen := true
    menuPosition := (3, 4)
    highlightRect := some { top := 1, left := 2, width := 3, height := 4 } }

theorem find?_filter_eq {α : Type} (q p : α → Bool) :
    ∀ l : List α, (l.filter q).find? p = l.find? (fun x => q x && p x)
  | [] => rfl
  | x :: xs => by
    cases hq : q x <;> cases hp : p x <;>
      simp [List.filter_cons, List.find?_cons, hq, hp, find?_filter_eq q p xs]

theorem find?_eq_some_of_mem_unique {α : Type} (p : α → Bool) (a : α) :
    ∀ l : List α, a ∈ l → p a = true →
      (∀ b ∈ l, p b = true → b = a) → l.find? p = some a
  | [], ha, _, _ => absurd ha (List.not_mem_nil a)
  | x :: xs, ha, hpa, huniq => by
    cases hx : p x with
    | true =>
      have hxa : x = a := huniq x (List.mem_cons_self x xs) hx
      simp [List.find?_cons, hx, hxa, hpa]
    | false =>
      have hax : a ≠ x := by
        intro h
        rw [← h, hpa] at hx
        exact Bool.noConfusion hx
      have ha2 : a ∈ xs := by
        rcases List.mem_cons.mp ha with h | h
        · exact absurd h hax
        · exact h
      simp only [List.find?_cons, hx]
      exact find?_eq_some_of_mem_unique p a xs ha2 hpa
        (fun b hb hpb => huniq b (List.mem_cons_of_mem x hb) hpb)

theorem tagMatches_serialize_self (e : DomElement) :
    tagMatches (serialize e) e = true := by
  simp [tagMatches, serialize]

theorem fieldsMatch_serialize_self (e : DomElement) :
    fieldsMatch (serialize e) e = true := by
  simp [fieldsMatch, serialize]

/-- C1: serialize then resolve round-trip. For every element of the
document whose (tagName, className, id, textContent) tuple is unique
among elements of its tag (tags compared case-insensitively, as the scan
compares them), resolving the serialized snapshot returns that element:
the scan finds exactly it as the first element of the recorded tag whose
className, id and textContent all equal the recorded values. -/
theorem serialize_resolve_roundtrip (doc : List DomElement) (e : DomElement)
    (hmem : e ∈ doc)
    (huniq : ∀ e2 ∈ doc, tagMatches (serialize e) e2 = true →
      fieldsMatch (serialize e) e2 = true → e2 = e) :
    resolve doc (serialize e) = some e := by
  unfold resolve
  rw [find?_filter_eq]
  refine find?_eq_some_of_mem_unique _ e doc hmem ?_ ?_
  · rw [Bool.and_eq_true]
    exact ⟨tagMatches_serialize_self e, fieldsMatch_serialize_self e⟩
  · intro b hb hpb
    rw [Bool.and_eq_true] at hpb
    exact huniq b hb hpb.1 hpb.2

/-- Witness for C1 at a concrete two-element document. -/
theorem serialize_resolve_roundtrip_witness :
    (demoElem ∈ demoDoc ∧
      ∀ e2 ∈ demoDoc, tagMatches (serialize demoElem) e2 = true →
        fieldsMatch (serialize demoElem) e2 = true → e2 = demoElem) ∧
    resolve demoDoc (serialize demoElem) = some demoElem :=
  ⟨⟨by decide, by decide⟩,
    serialize_resolve_roundtrip demoDoc demoElem (by decide) (by decide)⟩

/-- C2: resolve selects the first element in document order among those
whose tag matches the record case-insensitively and whose className, id
and textContent all equal the recorded values exactly (so with duplicate
matches the first in document order wins, and resolve, a pure function
of the document and the record, returns it on every repeated call), and
returns none exactly when no element satisfies all three. -/
theorem resolve_first_match (doc : List DomElement) (rec : SelectedElement) :
    resolve doc rec = specResolve doc rec ∧
    (resolve doc rec = none ↔
      ∀ e ∈ doc, ¬ (tagMatches rec e = true ∧ fieldsMatch rec e = true)) := by
  have h := find?_filter_eq (tagMatches rec) (fun el => fieldsMatch rec el) doc
  constructor
  · exact h
  · unfold resolve
    rw [h, List.find?_eq_none]
    constructor
    · intro hall e he hcon
      exact hall e he (by rw [Bool.and_eq_true]; exact hcon)
    · intro hall e he hcon
      rw [Bool.and_eq_true] at hcon
      exact hall e he hcon

/-- Witness for C2 at a concrete document and record. -/
theorem resolve_first_match_witness :
    resolve demoDoc (serialize demoElem) =
      specResolve demoDoc (serialize demoElem) :=
  (resolve_first_match demoDoc (serialize demoElem)).1

/-- C3: a run whose target resolves to a live element moves the phase in
the exact order down, up, down2, up2, target-found, context-enhancing,
complete; the phase changes happen at the cumulative sweep durations and
callout delays and each sweep reaches progress 1 exactly when it
resolves, so every sweep completes before the next phase starts; and
onComplete is invoked exactly once, as the last event of the run, after
the phase reaches complete. -/
theorem analyzer_full_run (e : DomElement) :
    analyzerPhaseSeq (some e) =
      [ScanPhase.down, ScanPhase.up, ScanPhase.down2, ScanPhase.up2,
       ScanPhase.targetFound, ScanPhase.contextEnhancing, ScanPhase.complete] ∧
    analyzerPhaseTimes (some e) = [750, 1500, 2250, 3000, 4000, 5500] ∧
    laserProgress (sweepDuration : ℚ) (sweepDuration : ℚ) = 1 ∧
    easeOutCubic 1 = 1 ∧
    completeCallCount (some e) = 1 ∧
    (eventSeq (some e)).getLast? = some AnalyzerEvent.callOnComplete ∧
    eventSeq (some e) =
      [AnalyzerEvent.setScanPhase ScanPhase.up,
       AnalyzerEvent.setScanPhase ScanPhase.down2,
       AnalyzerEvent.setScanPhase ScanPhase.up2,
       AnalyzerEvent.setScanPhase ScanPhase.targetFound,
       AnalyzerEvent.setShowTargetFound true,
       AnalyzerEvent.setScanPhase ScanPhase.contextEnhancing,
       AnalyzerEvent.setShowTargetFound false,
       AnalyzerEvent.setShowContextEnhancing true,
       AnalyzerEvent.setShowContextEnhancing false,
       AnalyzerEvent.setScanPhase ScanPhase.complete,
       AnalyzerEvent.callOnComplete] := by
  refine ⟨rfl, rfl, ?_, ?_, rfl, rfl, rfl⟩
  · norm_num [laserProgress, sweepDuration]
  · norm_num [easeOutCubic]

/-- C4 is violated by the code: the analyzer effect registers no cleanup
and the component never cancels a timer or an animation frame, so after
the active flag is cleared 1000 milliseconds into a run with a resolved
target, the remaining phase transitions still occur and onComplete still
fires at 5500 milliseconds. This theorem evaluates the embedded code at
that failing input. -/
theorem analyzer_abort_still_fires :
    (1500, AnalyzerEvent.setScanPhase ScanPhase.down2) ∈
      eventsAfterDeactivation (some demoElem) 1000 ∧
    (5500, AnalyzerEvent.setScanPhase ScanPhase.complete) ∈
      eventsAfterDeactivation (some demoElem) 1000 ∧
    (5500, AnalyzerEvent.callOnComplete) ∈
      eventsAfterDeactivation (some demoElem) 1000 := by
  decide

/-- C5 counterexample: at the concrete unresolvable target, the phase
sequence does not go directly from the fourth sweep phase to complete
and target-found is not skipped: the code still sets the phase to
target-found first. -/
theorem analyzer_unresolved_counterexample :
    ¬ (analyzerPhaseSeq none =
        [ScanPhase.down, ScanPhase.up, ScanPhase.down2, ScanPhase.up2,
         ScanPhase.complete]) ∧
    AnalyzerEvent.setScanPhase ScanPhase.targetFound ∈ eventSeq none := by
  decide

/-- C5 amended: a run whose target does not resolve still sets the phase
to target-found immediately after the fourth sweep and then moves to
complete in the same instant, skipping only context-enhancing; neither
callout is ever shown (no visibility flag is raised) and onComplete
fires exactly once, as the last event. -/
theorem analyzer_unresolved_run :
    analyzerPhaseSeq none =
      [ScanPhase.down, ScanPhase.up, ScanPhase.down2, ScanPhase.up2,
       ScanPhase.targetFound, ScanPhase.complete] ∧
    analyzerPhaseTimes none = [750, 1500, 2250, 3000, 3000] ∧
    (∀ b : Bool, AnalyzerEvent.setShowTargetFound b ∉ eventSeq none) ∧
    (∀ b : Bool, AnalyzerEvent.setShowContextEnhancing b ∉ eventSeq none) ∧
    AnalyzerEvent.setScanPhase ScanPhase.contextEnhancing ∉ eventSeq none ∧
    completeCallCount none = 1 ∧
    (eventSeq none).getLast? = some AnalyzerEvent.callOnComplete := by
  decide

/-- C6 counterexample: with select mode active, a hovered element and a
pinned record that resolves, Escape emits exactly one ELEMENT_SELECTED
message with the absent marker and clears the hover, yet the selection
highlight does not return to none: the resolve effect still finds the
pinned element, because Escape leaves the parent-supplied record in
place. -/
theorem escape_highlight_counterexample :
    handleEscapeKeyDown true "Escape" (some demoElem) =
      (none, [FrameMsg.elementSelected none]) ∧
    ¬ (resolveEffect demoDoc (some (serialize demoElem)) = none) := by
  decide

/-- C6 amended: while select mode is active, Escape emits exactly one
ELEMENT_SELECTED message carrying the explicit absent-element marker and
clears the hover highlight to none; the pinned selection highlight is
untouched by Escape itself and returns to none once the parent answers
with SET_SELECTED_ELEMENT carrying the absent marker, whatever the
document contents. -/
theorem escape_emits_clear (doc : List DomElement) (s : BridgeState)
    (hov : Option DomElement) (h : s.isSelectMode = true) :
    handleEscapeKeyDown s.isSelectMode "Escape" hov =
      (none, [FrameMsg.elementSelected none]) ∧
    (handleMessage (ParentMsg.setSelectedElement none) s).selectedElement =
      none ∧
    resolveEffect doc
      (handleMessage (ParentMsg.setSelectedElement none) s).selectedElement =
      none := by
  rw [h]
  exact ⟨rfl, rfl, rfl⟩

/-- Witness for the amended C6 at a concrete state with select mode on. -/
theorem escape_emits_clear_witness :
    demoBridgeState.isSelectMode = true ∧
    (handleEscapeKeyDown demoBridgeState.isSelectMode "Escape" (some demoElem) =
        (none, [FrameMsg.elementSelected none]) ∧
      (handleMessage (ParentMsg.setSelectedElement none)
        demoBridgeState).selectedElement = none ∧
      resolveEffect demoDoc
        (handleMessage (ParentMsg.setSelectedElement none)
          demoBridgeState).selectedElement = none) :=
  ⟨rfl, escape_emits_clear demoDoc demoBridgeState (some demoElem) rfl⟩

/-- C7: the height reported in CONTENT_HEIGHT_CHANGED is the measured
raw height clamped to the interval from 800 to 6400 with the maximum
bound applied first and the minimum bound second, and the concrete raw
heights 0, 500, 4000 and 9000 are reported as 800, 800, 4000 and 6400. -/
theorem height_clamp (b1 b2 b3 b4 b5 : Nat) :
    measureAndSendHeight b1 b2 b3 b4 b5 =
      FrameMsg.contentHeightChanged
        (specClampHeight (max b1 (max b2 (max b3 (max b4 b5))))) ∧
    measureAndSendHeight 0 0 0 0 0 = FrameMsg.contentHeightChanged 800 ∧
    measureAndSendHeight 500 0 0 0 0 = FrameMsg.contentHeightChanged 800 ∧
    measureAndSendHeight 4000 0 0 0 0 = FrameMsg.contentHeightChanged 4000 ∧
    measureAndSendHeight 9000 0 0 0 0 = FrameMsg.contentHeightChanged 6400 :=
  ⟨rfl, by decide, by decide, by decide, by decide⟩

/-- C8: in a viewport large enough to hold the nominal 220 by 130 menu
box with its 10 pixel margin, the computed context-menu position keeps
the box fully inside the viewport: an overflowing coordinate is moved to
viewport extent minus box size minus margin, a fitting coordinate is
kept, and the event at (innerWidth - 10, innerHeight - 10) has both
coordinates so shifted. -/
theorem menu_position_clamped (clientX clientY innerWidth innerHeight : Int)
    (hx0 : 0 ≤ clientX) (_hxw : clientX ≤ innerWidth)
    (hy0 : 0 ≤ clientY) (_hyh : clientY ≤ innerHeight)
    (hw : 230 ≤ innerWidth) (hh : 140 ≤ innerHeight) :
    (innerWidth < clientX + 220 →
      (computeMenuPosition clientX clientY innerWidth innerHeight).1 =
        innerWidth - 220 - 10) ∧
    (clientX + 220 ≤ innerWidth →
      (computeMenuPosition clientX clientY innerWidth innerHeight).1 =
        clientX) ∧
    (innerHeight < clientY + 130 →
      (computeMenuPosition clientX clientY innerWidth innerHeight).2 =
        innerHeight - 130 - 10) ∧
    (clientY + 130 ≤ innerHeight →
      (computeMenuPosition clientX clientY innerWidth innerHeight).2 =
        clientY) ∧
    0 ≤ (computeMenuPosition clientX clientY innerWidth innerHeight).1 ∧
    (computeMenuPosition clientX clientY innerWidth innerHeight).1 + 220 ≤
      innerWidth ∧
    0 ≤ (computeMenuPosition clientX clientY innerWidth innerHeight).2 ∧
    (computeMenuPosition clientX clientY innerWidth innerHeight).2 + 130 ≤
      innerHeight ∧
    computeMenuPosition (innerWidth - 10) (innerHeight - 10)
        innerWidth innerHeight =
      (innerWidth - 220 - 10, innerHeight - 130 - 10) := by
  refine ⟨?_, ?_, ?_, ?_, ?_, ?_, ?_, ?_, ?_⟩ <;>
    · intros
      simp only [computeMenuPosition, menuWidth, menuHeight]
      split_ifs <;> first | rfl | omega

/-- Witness for C8 at a 1024 by 768 viewport with the event at
(1014, 758): both coordinates overflow and are shifted. -/
theorem menu_position_clamped_witness :
    (computeMenuPosition 1014 758 1024 768).1 = 794 ∧
    (computeMenuPosition 1014 758 1024 768).2 = 628 := by
  have h := menu_position_clamped 1014 758 1024 768 (by norm_num)
    (by norm_num) (by norm_num) (by norm_num) (by norm_num) (by norm_num)
  constructor
  · rw [h.1 (by norm_num)]
    norm_num
  · rw [h.2.2.1 (by norm_num)]
    norm_num

/-- C9: every ANALYZER_ANIMATION_COMPLETE message emitted over a run is
produced by handleAnalyzerComplete and carries success true, whatever
the bridge state and whether or not the target resolved; each run emits
exactly one of them and none with success false. -/
theorem analyzer_complete_success (s : BridgeState) (t : Option DomElement) :
    analyzerCompleteEmissions s t =
      [FrameMsg.analyzerAnimationComplete true] ∧
    (handleAnalyzerComplete s).2 = FrameMsg.analyzerAnimationComplete true := by
  cases t <;> exact ⟨rfl, rfl⟩

/-- C10: handleContextMenu calls preventDefault first and
unconditionally, before and independently of the hit test; and when the
hit test finds no element it performs no state update at all: the menu
does not open and the captured element, the highlight rectangle and the
menu position are left unchanged. -/
theorem contextmenu_guard (hit : Option DomElement) (rectOf : DomElement → Rect)
    (clientX clientY innerWidth innerHeight : Int) (s : CtxMenuState) :
    (handleContextMenu hit rectOf clientX clientY innerWidth innerHeight).head? =
      some CtxAction.preventDefault ∧
    (hit = none →
      handleContextMenu hit rectOf clientX clientY innerWidth innerHeight =
        [CtxAction.preventDefault] ∧
      applyCtxActions s
        (handleContextMenu hit rectOf clientX clientY innerWidth innerHeight) =
        s) := by
  constructor
  · cases hit <;> rfl
  · intro hnone
    subst hnone
    exact ⟨rfl, rfl⟩

/-- Witness for C10: a right-click at (5, 6) in a 1024 by 768 viewport
that hits no element leaves a concrete open-menu state untouched and
still suppresses the default menu. -/
theorem contextmenu_guard_witness :
    (handleContextMenu none demoRectOf 5 6 1024 768).head? =
      some CtxAction.preventDefault ∧
    (handleContextMenu none demoRectOf 5 6 1024 768 =
        [CtxAction.preventDefault] ∧
      applyCtxActions demoCtxState
        (handleContextMenu none demoRectOf 5 6 1024 768) = demoCtxState) :=
  ⟨(contextmenu_guard none demoRectOf 5 6 1024 768 demoCtxState).1,
   (contextmenu_guard none demoRectOf 5 6 1024 768 demoCtxState).2 rfl⟩

end ContentBridgeSpec
